import Mathlib

/-!
Verification of the version-resolution contract of the cli-mcp package.

The source under verification is `src/cli_mcp/__init__.py`:

    try:
        from importlib.metadata import version
        __version__ = version("cli-mcp")
    except Exception:
        __version__ = "dev"

We embed the try block as a function of an abstract metadata provider.  A
raised Python error is modelled by whether it is an instance of the Python
class named Exception (`isException = true`) or a BaseException that is not an
Exception, such as KeyboardInterrupt or SystemExit (`isException = false`);
the `except Exception` clause catches exactly the former.
-/

/-- A raised Python error object, modelled by its membership in the hierarchy
of the Python class named Exception (`isException = true` for its instances,
`false` for a BaseException that is not one of them, such as KeyboardInterrupt
or SystemExit) together with its message. -/
structure PyErr where
  isException : Bool
  msg : String
deriving DecidableEq

/-- The environment seen by the try block of `cli_mcp/__init__.py`: the
statement `from importlib.metadata import version` may itself raise, and the
imported `version` function maps a package name to a version string or
raises. -/
structure Provider where
  importVersion : Except PyErr Unit
  version : String → Except PyErr String

/-- The body of the try block in `cli_mcp/__init__.py`, instrumented with the
number of metadata reads (calls of the `version` function) it performs:
`from importlib.metadata import version` followed by `version("cli-mcp")`.
When the import raises, the lookup is never reached and zero reads happen. -/
def tryBody (p : Provider) : Except PyErr String × Nat :=
  match p.importVersion with
  | .error e => (.error e, 0)
  | .ok _ => (p.version "cli-mcp", 1)

/-- The module-load version resolver of `cli_mcp/__init__.py`: run the try
body; an error whose class is Exception is caught by the `except Exception`
clause and the fallback "dev" is assigned; any other raised error propagates
(the resolver returns it as `Except.error`). On `Except.ok v`, the module
attribute named version is bound to `v`. -/
def resolveVersion (p : Provider) : Except PyErr String :=
  match (tryBody p).1 with
  | .ok v => .ok v
  | .error e => if e.isException then .ok "dev" else .error e

/-- Whether module initialization ran to completion (no error propagated out
of the try statement). -/
def resolveCompletes (p : Provider) : Bool :=
  match resolveVersion p with
  | .ok _ => true
  | .error _ => false

/-- The state of the module-level version binding, as in the spec: unresolved
before load, then resolved with the looked-up string or fallen back to
"dev". -/
inductive ModuleState where
  | unresolved
  | resolved (v : String)
  | fallback
deriving DecidableEq

/-- The load-time transition relation on the version binding induced by
`cli_mcp/__init__.py` under provider behavior `p`: the single try statement
of the module assigns the binding exactly once, and no other statement of the
module touches it, so the only transitions leave `unresolved`. -/
inductive Step (p : Provider) : ModuleState → ModuleState → Prop where
  | initOk : ∀ v, (tryBody p).1 = .ok v → Step p .unresolved (.resolved v)
  | initFallback : ∀ e, (tryBody p).1 = .error e → e.isException = true →
      Step p .unresolved .fallback

/-- The process state visible around module load: the version binding plus
every other component of the process state, abstracted as `other`. -/
structure ProcState (α : Type) where
  version : Option String
  other : α
deriving DecidableEq

/-- Module load acting on the process state: on success the resolved version
is installed in the version binding; a propagated raise leaves no new state. -/
def runInit {α : Type} (p : Provider) (s : ProcState α) :
    Except PyErr (ProcState α) :=
  match resolveVersion p with
  | .ok v => .ok { version := some v, other := s.other }
  | .error e => .error e

/-- Repeated runs of the resolution logic against the same provider behavior:
the list of the results of `n` consecutive runs. -/
def resolveRuns (p : Provider) : Nat → List (Except PyErr String)
  | 0 => []
  | n + 1 => resolveVersion p :: resolveRuns p n

/-- Modelled from the spec: the command-line entry point (the package module
named main that `python -m cli_mcp` executes) is absent from the sources; only
`tests/test_main.py` invokes it. Per the spec, invoking the module with the
single argument `--version` first loads the package (running the version
resolver of `cli_mcp/__init__.py`, embedded above from the source) and then
prints the line `cli-mcp version: ` followed by the resolved version to
standard output and exits with status code 0. The result is the pair of exit
status and standard output; a raise that module load does not catch propagates
instead, following normal Python import semantics. -/
def runMainVersion (p : Provider) : Except PyErr (Nat × String) :=
  match resolveVersion p with
  | .ok v => .ok (0, "cli-mcp version: " ++ v)
  | .error e => .error e

/-- A provider whose import succeeds and whose lookup returns "1.2.3". -/
def okProvider : Provider :=
  { importVersion := .ok (), version := fun _ => .ok "1.2.3" }

/-- A provider whose lookup raises an Exception-class error, as in the test
that mocks the lookup with a raised Exception object. -/
def failProvider : Provider :=
  { importVersion := .ok (),
    version := fun _ => .error { isException := true, msg := "Package not found" } }

/-- A provider whose lookup raises KeyboardInterrupt, a BaseException that is
not an instance of the Python class named Exception. -/
def interruptProvider : Provider :=
  { importVersion := .ok (),
    version := fun _ => .error { isException := false, msg := "KeyboardInterrupt" } }

/-- A provider whose lookup raises SystemExit, a BaseException that is not an
instance of the Python class named Exception. -/
def sysExitProvider : Provider :=
  { importVersion := .ok (),
    version := fun _ => .error { isException := false, msg := "SystemExit" } }

/-- A provider whose import statement itself raises ModuleNotFoundError, an
Exception-class error. -/
def importFailProvider : Provider :=
  { importVersion := .error { isException := true, msg := "ModuleNotFoundError" },
    version := fun _ => .ok "unused" }

/-- C1 counterexample: a provider whose version lookup raises
KeyboardInterrupt, an error that is not an instance of the Python class named
Exception; the resolver does not set the version binding to "dev" — the raise
propagates past the `except Exception` clause. -/
theorem c1_counterexample :
    resolveVersion interruptProvider =
      .error { isException := false, msg := "KeyboardInterrupt" } ∧
    resolveVersion interruptProvider ≠ .ok "dev" := by
  refine ⟨rfl, fun h => ?_⟩
  rw [show resolveVersion interruptProvider =
        .error { isException := false, msg := "KeyboardInterrupt" } from rfl] at h
  exact Except.noConfusion h

/-- C1 (amended): whenever the version lookup raises an error of class
Exception, the resolver sets the resolved version to the literal "dev". -/
theorem c1_fallback_on_exception (p : Provider) (e : PyErr)
    (himp : p.importVersion = .ok ())
    (hv : p.version "cli-mcp" = .error e)
    (he : e.isException = true) :
    resolveVersion p = .ok "dev" := by
  simp [resolveVersion, tryBody, himp, hv, he]

/-- C1 witness: at the provider whose lookup raises an Exception-class error,
the resolver yields "dev". -/
theorem c1_fallback_on_exception_witness :
    resolveVersion failProvider = .ok "dev" :=
  c1_fallback_on_exception failProvider
    { isException := true, msg := "Package not found" } rfl rfl rfl

/-- C2: if the import succeeds and the metadata provider returns the string
`v` for the registered package name "cli-mcp" without raising, the resolver
sets the resolved version equal to `v`. -/
theorem c2_success (p : Provider) (v : String)
    (himp : p.importVersion = .ok ())
    (hv : p.version "cli-mcp" = .ok v) :
    resolveVersion p = .ok v := by
  simp [resolveVersion, tryBody, himp, hv]

/-- C2 witness: at the provider returning "1.2.3", the resolver yields
"1.2.3". -/
theorem c2_success_witness :
    resolveVersion okProvider = .ok "1.2.3" :=
  c2_success okProvider "1.2.3" rfl rfl

/-- C3 counterexample: when the lookup raises SystemExit (not an instance of
the Python class named Exception), module initialization does not complete —
the error propagates out of the resolver, contradicting the claim that every
raised error is fully absorbed locally. -/
theorem c3_counterexample :
    resolveCompletes sysExitProvider = false ∧
    resolveVersion sysExitProvider =
      .error { isException := false, msg := "SystemExit" } := ⟨rfl, rfl⟩

/-- C3 (amended): for every error of class Exception raised by the try body
(import or lookup), the resolver never lets the error propagate: module
initialization completes and the resolved version is the defined fallback
"dev". -/
theorem c3_no_raise_on_exception (p : Provider) (e : PyErr)
    (hb : (tryBody p).1 = .error e) (he : e.isException = true) :
    resolveCompletes p = true ∧ resolveVersion p = .ok "dev" := by
  have hv : resolveVersion p = .ok "dev" := by
    simp [resolveVersion, hb, he]
  exact ⟨by simp [resolveCompletes, hv], hv⟩

/-- C3 witness: at the provider whose lookup raises an Exception-class error,
initialization completes with the fallback. -/
theorem c3_no_raise_on_exception_witness :
    resolveCompletes failProvider = true ∧
    resolveVersion failProvider = .ok "dev" :=
  c3_no_raise_on_exception failProvider
    { isException := true, msg := "Package not found" } rfl rfl

/-- C4: when the resolver yields the version `v`, invoking the entry point
with the single argument `--version` exits with status 0 and prints to
standard output the line containing `cli-mcp version: ` followed by `v`. -/
theorem c4_cli_version (p : Provider) (v : String)
    (h : resolveVersion p = .ok v) :
    runMainVersion p = .ok (0, "cli-mcp version: " ++ v) := by
  simp [runMainVersion, h]

/-- C4 witness: at the provider returning "1.2.3", the invocation exits 0 and
prints the expected line. -/
theorem c4_cli_version_witness :
    runMainVersion okProvider = .ok (0, "cli-mcp version: " ++ "1.2.3") :=
  c4_cli_version okProvider "1.2.3" rfl

/-- C5 counterexample: when the lookup raises KeyboardInterrupt (not an
instance of the Python class named Exception), the entry point does not exit
with status 0 printing the fallback line — the raise propagates through module
load. -/
theorem c5_counterexample :
    runMainVersion interruptProvider =
      .error { isException := false, msg := "KeyboardInterrupt" } ∧
    runMainVersion interruptProvider ≠ .ok (0, "cli-mcp version: dev") := by
  refine ⟨rfl, fun h => ?_⟩
  rw [show runMainVersion interruptProvider =
        .error { isException := false, msg := "KeyboardInterrupt" } from rfl] at h
  exact Except.noConfusion h

/-- C5 (amended): when the metadata provider raises an Exception-class error
on lookup, invoking the entry point with `--version` still exits with status 0
and prints `cli-mcp version: dev` to standard output. -/
theorem c5_cli_fallback (p : Provider) (e : PyErr)
    (himp : p.importVersion = .ok ())
    (hv : p.version "cli-mcp" = .error e)
    (he : e.isException = true) :
    runMainVersion p = .ok (0, "cli-mcp version: dev") := by
  simp [runMainVersion, resolveVersion, tryBody, himp, hv, he]

/-- C5 witness: at the provider whose lookup raises an Exception-class error,
the invocation exits 0 and prints the fallback line. -/
theorem c5_cli_fallback_witness :
    runMainVersion failProvider = .ok (0, "cli-mcp version: dev") :=
  c5_cli_fallback failProvider
    { isException := true, msg := "Package not found" } rfl rfl rfl

/-- C6: for a fixed provider behavior, every one of any number of consecutive
runs of the resolution logic yields the same resolved value — the single run
result — so two runs with the same provider behavior produce equal results. -/
theorem c6_runs_agree (p : Provider) (n : Nat) (r : Except PyErr String)
    (hr : r ∈ resolveRuns p n) : r = resolveVersion p := by
  induction n with
  | zero => simp [resolveRuns] at hr
  | succ k ih =>
    rw [resolveRuns] at hr
    rcases List.mem_cons.mp hr with h | h
    · exact h
    · exact ih h

/-- C6 witness: a member of two consecutive runs at a concrete provider equals
the single-run result. -/
theorem c6_runs_agree_witness :
    (Except.ok "1.2.3" : Except PyErr String) = resolveVersion okProvider :=
  c6_runs_agree okProvider 2 (.ok "1.2.3") (List.Mem.head _)

/-- C7: under any provider behavior, the version binding transitions exactly
once and only out of the unresolved state, the transition is deterministic,
and both of the target states (resolved and fallback) are terminal: no step
leaves them, so nothing can modify the binding afterward. -/
theorem c7_state_machine (p : Provider) :
    (∀ s t, Step p s t → s = ModuleState.unresolved) ∧
    (∀ s t t', Step p s t → Step p s t' → t = t') ∧
    (∀ v t, ¬ Step p (ModuleState.resolved v) t) ∧
    (∀ t, ¬ Step p ModuleState.fallback t) := by
  refine ⟨?_, ?_, ?_, ?_⟩
  · intro s t h; cases h <;> rfl
  · intro s t t' h h'
    cases h with
    | initOk v hv =>
      cases h' with
      | initOk v' hv' =>
        rw [hv] at hv'
        injection hv' with hvv
        rw [hvv]
      | initFallback e he hex =>
        rw [hv] at he
        exact Except.noConfusion he
    | initFallback e he hex =>
      cases h' with
      | initOk v' hv' =>
        rw [hv'] at he
        exact Except.noConfusion he
      | initFallback e' he' hex' => rfl
  · intro v t h; cases h
  · intro t h; cases h

/-- C7 witness: the first conjunct applied to a concrete transition at a
concrete provider. -/
theorem c7_state_machine_witness :
    ModuleState.unresolved = ModuleState.unresolved :=
  (c7_state_machine okProvider).1 ModuleState.unresolved
    (ModuleState.resolved "1.2.3") (Step.initOk "1.2.3" rfl)

/-- C8: a completed run of module load leaves every component of the process
state other than the version binding unchanged, and the try body performs at
most one metadata read — exactly one when the import succeeds, which is its
only input-output action. -/
theorem c8_frame (α : Type) (p : Provider) (s t : ProcState α)
    (h : runInit p s = .ok t) :
    t.other = s.other ∧ (tryBody p).2 ≤ 1 ∧
      (p.importVersion = .ok () → (tryBody p).2 = 1) := by
  refine ⟨?_, ?_, ?_⟩
  · unfold runInit at h
    cases hr : resolveVersion p with
    | ok v =>
      rw [hr] at h
      injection h with h2
      rw [← h2]
    | error e =>
      rw [hr] at h
      exact Except.noConfusion h
  · unfold tryBody
    cases p.importVersion <;> simp
  · intro hi
    unfold tryBody
    rw [hi]

/-- C8 witness: at a concrete provider and process state, the other component
is unchanged and at most one read happened. -/
theorem c8_frame_witness :
    ({ version := some "1.2.3", other := 42 } : ProcState Nat).other =
      ({ version := none, other := 42 } : ProcState Nat).other ∧
    (tryBody okProvider).2 ≤ 1 ∧
      (okProvider.importVersion = .ok () → (tryBody okProvider).2 = 1) :=
  c8_frame Nat okProvider { version := none, other := 42 }
    { version := some "1.2.3", other := 42 } rfl

/-- C9: the import statement is inside the guarded region, so when importing
the metadata module itself raises an Exception-class error (such as
ModuleNotFoundError when the module is absent), that failure is also caught
and the resolved version is set to "dev". -/
theorem c9_import_guarded (p : Provider) (e : PyErr)
    (hi : p.importVersion = .error e) (he : e.isException = true) :
    resolveVersion p = .ok "dev" := by
  simp [resolveVersion, tryBody, hi, he]

/-- C9 witness: at the provider whose import raises ModuleNotFoundError, the
resolver yields "dev". -/
theorem c9_import_guarded_witness :
    resolveVersion importFailProvider = .ok "dev" :=
  c9_import_guarded importFailProvider
    { isException := true, msg := "ModuleNotFoundError" } rfl rfl

/-- C10: the catch-all clause handles exactly the errors of class Exception;
an error raised by the try body that is a BaseException but not an Exception
propagates out of module initialization and the fallback value is not
installed. -/
theorem c10_base_exception_propagates (p : Provider) (e : PyErr)
    (hb : (tryBody p).1 = .error e) (he : e.isException = false) :
    resolveVersion p = .error e ∧ resolveVersion p ≠ .ok "dev" := by
  have hr : resolveVersion p = .error e := by
    simp [resolveVersion, hb, he]
  refine ⟨hr, fun h => ?_⟩
  rw [hr] at h
  exact Except.noConfusion h

/-- C10 witness: at the provider whose lookup raises KeyboardInterrupt, the
error propagates and the fallback is not installed. -/
theorem c10_base_exception_propagates_witness :
    resolveVersion interruptProvider =
      .error { isException := false, msg := "KeyboardInterrupt" } ∧
    resolveVersion interruptProvider ≠ .ok "dev" :=
  c10_base_exception_propagates interruptProvider
    { isException := false, msg := "KeyboardInterrupt" } rfl rfl
